import Mathlib

/-!
Shallow embedding of the vaultctl secret store (Go sources under internal/crypto,
internal/storage, internal/vault, the session package and the cobra commands).
Byte strings are modelled symbolically: an ideal AEAD ciphertext remembers the
plaintext, key and nonce it was produced from, and decryption succeeds exactly
when the same key and nonce are supplied, mirroring authenticated encryption.
-/

/-- KDFParams from internal/crypto (Argon2id parameters). -/
structure KDFParams where
  algo : String
  memory : Nat
  iterations : Nat
  parallelism : Nat
deriving DecidableEq, Repr

/-- Entry from internal/vault/vault.go: one credential record. -/
structure Entry where
  id : String
  name : String
  username : String
  password : List Nat
  url : String
  notes : String
  backupCodes : List String
  createdAt : Nat
  updatedAt : Nat
deriving DecidableEq, Repr

/-- Vault from internal/vault/vault.go: the plaintext record model. -/
structure Vault where
  schemaVersion : Nat
  vaultID : String
  entries : List Entry
deriving DecidableEq, Repr

/-- Symbolic byte strings.  rand32 and rand24 are ideal random values tagged by
a freshness identifier (GenerateSalt, GenerateVaultKey, the AEAD nonces); kdf is
an Argon2id derivation; sealed p k n is the AEAD ciphertext of plaintext p under
key k and nonce n; vaultJson is the JSON serialization of a record model. -/
inductive Bytes where
  | raw : List Nat → Bytes
  | strB : String → Bytes
  | rand32 : Nat → Bytes
  | rand24 : Nat → Bytes
  | kdf : Bytes → Bytes → KDFParams → Bytes
  | sealed : Bytes → Bytes → Bytes → Bytes
  | vaultJson : Vault → Bytes
deriving DecidableEq, Repr

/-- Length in bytes of a symbolic byte string.  Only nonce lengths are ever
inspected by the code (the 24-byte check in Decrypt and DecryptVaultKey). -/
def Bytes.blen : Bytes → Nat
  | .raw l => l.length
  | .strB s => s.length
  | .rand32 _ => 32
  | .rand24 _ => 24
  | .kdf _ _ _ => 32
  | .sealed p _ _ => p.blen + 16
  | .vaultJson _ => 0

/-- A base64 field of the persisted envelope: either the empty string or the
base64 encoding of a byte string.  The Go code tests emptiness of the string
field directly (for the legacy wrapped-key nonce fallback). -/
inductive B64 where
  | empty
  | enc : Bytes → B64
deriving DecidableEq, Repr

/-- crypto.EncodeBase64. -/
def EncodeBase64 (data : Bytes) : B64 := B64.enc data

/-- crypto.DecodeBase64.  Decoding the empty string yields the empty byte
slice; decoding a well-formed encoding recovers the bytes.  Malformed base64
(the only failure case in Go) is outside the value space of B64. -/
def DecodeBase64 : B64 → Bytes
  | .empty => .raw []
  | .enc b => b

/-- crypto.DefaultKDFParams. -/
def DefaultKDFParams : KDFParams :=
  { algo := "argon2id", memory := 64 * 1024, iterations := 3, parallelism := 1 }

/-- crypto.DeriveMasterKey: Argon2id of the password and salt. -/
def DeriveMasterKey (password salt : Bytes) (params : KDFParams) : Bytes :=
  .kdf password salt params

/-- crypto.Encrypt: XChaCha20-Poly1305 with a fresh random 24-byte nonce; the
freshness of the nonce is made explicit by the identifier argument.  Returns
(ciphertext, nonce) as in Go. -/
def Encrypt (plaintext key : Bytes) (nonceId : Nat) : Bytes × Bytes :=
  (.sealed plaintext key (.rand24 nonceId), .rand24 nonceId)

/-- crypto.Decrypt: succeeds exactly when the ciphertext was sealed under the
given key and nonce (ideal AEAD); enforces the 24-byte nonce length check. -/
def Decrypt (ciphertext nonce key : Bytes) : Option Bytes :=
  if nonce.blen ≠ 24 then none
  else
    match ciphertext with
    | .sealed p k n => if k = key ∧ n = nonce then some p else none
    | _ => none

/-- crypto.EncryptVaultKey: wrap the vault key under the master key with a
fresh 24-byte nonce; returns (wrapped key, nonce). -/
def EncryptVaultKey (vaultKey masterKey : Bytes) (nonceId : Nat) : Bytes × Bytes :=
  (.sealed vaultKey masterKey (.rand24 nonceId), .rand24 nonceId)

/-- crypto.DecryptVaultKey: unwrap the vault key; same ideal-AEAD semantics
and nonce length check as Decrypt. -/
def DecryptVaultKey (encryptedVaultKey nonce masterKey : Bytes) : Option Bytes :=
  if nonce.blen ≠ 24 then none
  else
    match encryptedVaultKey with
    | .sealed p k n => if k = masterKey ∧ n = nonce then some p else none
    | _ => none

/-- crypto.ConstantTimeCompare: true exactly on equal byte strings. -/
def ConstantTimeCompare (a b : Bytes) : Bool := a = b

/-- vault.FromJSON: deserialization succeeds exactly on serialized vaults. -/
def VaultFromJSON : Bytes → Option Vault
  | .vaultJson v => some v
  | _ => none

/-- vault.NewVault: empty record model (the vault identifier is the freshly
generated UUID, passed explicitly here). -/
def NewVault (vid : String) : Vault :=
  { schemaVersion := 1, vaultID := vid, entries := [] }

/-- storage.EncryptedVault from the storage package: the persisted envelope.
ModifiedAt is an abstract timestamp. -/
structure EncryptedVault where
  schemaVersion : Nat
  vaultID : String
  saltMaster : B64
  encVaultKey : B64
  vaultKeyNonce : B64
  kdfParams : KDFParams
  cipher : String
  ciphertext : B64
  nonce : B64
  modifiedAt : Nat
  version : Int
deriving DecidableEq, Repr

/-- decryptVault from internal/storage (helper shared by DecryptAndLoad):
derives the master key, unwraps the vault key (using the dedicated
vault_key_nonce field when non-empty and falling back to the record-model
nonce otherwise), decrypts the payload and deserializes the record model.
Returns (vault, vaultKey) on success, none on any failure. -/
def decryptVault (ev : EncryptedVault) (masterPassword : Bytes) : Option (Vault × Bytes) :=
  let salt := DecodeBase64 ev.saltMaster
  let encVaultKey := DecodeBase64 ev.encVaultKey
  let masterKey := DeriveMasterKey masterPassword salt ev.kdfParams
  let vaultKeyNonce :=
    if ev.vaultKeyNonce ≠ B64.empty then DecodeBase64 ev.vaultKeyNonce
    else DecodeBase64 ev.nonce
  match DecryptVaultKey encVaultKey vaultKeyNonce masterKey with
  | none => none
  | some vaultKey =>
    let ciphertext := DecodeBase64 ev.ciphertext
    let nonce := DecodeBase64 ev.nonce
    match Decrypt ciphertext nonce vaultKey with
    | none => none
    | some plaintext =>
      match VaultFromJSON plaintext with
      | none => none
      | some v => some (v, vaultKey)

/-- DynamoDBItem from internal/storage/dynamodb.go: the single remote record
of one account.  vaultBlob stands for the JSON serialization of the envelope
stored in the vault_blob attribute. -/
structure DItem where
  pk : String
  sk : String
  vaultID : String
  vaultBlob : EncryptedVault
  version : Int
  modifiedAt : Nat
  deviceID : String
deriving DecidableEq, Repr

/-- The item SaveVault writes for an envelope (dynamodb.go lines 64 to 72). -/
def mkDynamoItem (ev : EncryptedVault) (userID deviceID : String) : DItem :=
  { pk := "USER#" ++ userID, sk := "VAULT", vaultID := ev.vaultID,
    vaultBlob := ev, version := ev.version, modifiedAt := ev.modifiedAt,
    deviceID := deviceID }

/-- Errors of the remote store operations. -/
inductive StoreErr where
  | versionConflict
  | notFound
deriving DecidableEq, Repr

/-- DynamoDBStorage.SaveVault: one atomic conditional PutItem with condition
attribute_not_exists(version) OR version = :expectedVersion.  The store state
is the optional item of this account; on success the item is replaced
wholesale.  A failed condition check is the version-conflict error. -/
def SaveVault (store : Option DItem) (ev : EncryptedVault) (expectedVersion : Int)
    (userID deviceID : String) : Except StoreErr (Option DItem) :=
  match store with
  | none => .ok (some (mkDynamoItem ev userID deviceID))
  | some item =>
    if item.version = expectedVersion then
      .ok (some (mkDynamoItem ev userID deviceID))
    else
      .error .versionConflict

/-- DynamoDBStorage.LoadVault: GetItem followed by parsing the blob; the nil
item is the not-found error. -/
def LoadVault (store : Option DItem) : Except StoreErr EncryptedVault :=
  match store with
  | none => .error .notFound
  | some item => .ok item.vaultBlob

/-- DynamoDBStorage.SyncVault: fetch the remote record, then either push the
local envelope (remote absent: expected version local-1; local newer or equal:
expected version is the fetched remote version) or return the newer remote
envelope without pushing.  The store is read at fetch time and the conditional
check runs against the state at put time; a caller-visible interleaving with
another writer is modelled by letting the two snapshots differ.  Returns the
resulting envelope together with the store state after the operation. -/
def SyncVault (fetchStore putStore : Option DItem) (localEV : EncryptedVault)
    (userID deviceID : String) : Except StoreErr (EncryptedVault × Option DItem) :=
  match LoadVault fetchStore with
  | .error _ =>
    match SaveVault putStore localEV (localEV.version - 1) userID deviceID with
    | .ok s => .ok (localEV, s)
    | .error e => .error e
  | .ok remoteEV =>
    if remoteEV.version ≤ localEV.version then
      match SaveVault putStore localEV remoteEV.version userID deviceID with
      | .ok s => .ok (localEV, s)
      | .error e => .error e
    else
      .ok (remoteEV, putStore)

/-- LocalStorage.EncryptAndSave (the envelope transformation it performs
before writing): re-serialize and re-encrypt the record model under the
existing vault key with a fresh nonce, set the modified time, increment the
version by one. -/
def EncryptAndSave (v : Vault) (vaultKey : Bytes) (nonceId now : Nat)
    (ev : EncryptedVault) : EncryptedVault :=
  let enc := Encrypt (.vaultJson v) vaultKey nonceId
  { ev with
    ciphertext := EncodeBase64 enc.1,
    nonce := EncodeBase64 enc.2,
    modifiedAt := now,
    version := ev.version + 1 }

/-- initCmd (the envelope it builds and persists): generate salt and vault
key, derive the master key with the default KDF parameters, wrap the vault
key, encrypt an empty record model, and assemble the envelope at version 1
with the dedicated wrapped-key nonce field populated. -/
def initEnvelope (password : Bytes) (saltId vkId wrapNonceId payloadNonceId : Nat)
    (vid : String) (now : Nat) : EncryptedVault :=
  let salt := Bytes.rand32 saltId
  let vaultKey := Bytes.rand32 vkId
  let kdfParams := DefaultKDFParams
  let masterKey := DeriveMasterKey password salt kdfParams
  let wrap := EncryptVaultKey vaultKey masterKey wrapNonceId
  let v := NewVault vid
  let enc := Encrypt (.vaultJson v) vaultKey payloadNonceId
  { schemaVersion := 1, vaultID := vid,
    saltMaster := EncodeBase64 salt,
    encVaultKey := EncodeBase64 wrap.1,
    vaultKeyNonce := EncodeBase64 wrap.2,
    kdfParams := kdfParams,
    cipher := "xchacha20poly1305",
    ciphertext := EncodeBase64 enc.1,
    nonce := EncodeBase64 enc.2,
    modifiedAt := now, version := 1 }

/-- rotateMasterCmd (the envelope transformation of a rotation): unwrap the
vault key with the current password (with the same legacy nonce fallback as
decryptVault), check the confirmed new password pair in constant time,
generate a new salt, derive the new master key with the stored KDF parameters,
re-wrap the same vault key with a fresh nonce, and update only the salt, the
wrapped key, its nonce, the modified time and the version.  none models an
error return (wrong current password or mismatched confirmation). -/
def rotateMaster (ev : EncryptedVault) (currentPassword newPassword1 newPassword2 : Bytes)
    (newSaltId newNonceId : Nat) (now : Nat) : Option EncryptedVault :=
  let salt := DecodeBase64 ev.saltMaster
  let encVaultKey := DecodeBase64 ev.encVaultKey
  let currentMasterKey := DeriveMasterKey currentPassword salt ev.kdfParams
  let vaultKeyNonce :=
    if ev.vaultKeyNonce ≠ B64.empty then DecodeBase64 ev.vaultKeyNonce
    else DecodeBase64 ev.nonce
  match DecryptVaultKey encVaultKey vaultKeyNonce currentMasterKey with
  | none => none
  | some vaultKey =>
    if ¬ ConstantTimeCompare newPassword1 newPassword2 then none
    else
      let newSalt := Bytes.rand32 newSaltId
      let newMasterKey := DeriveMasterKey newPassword1 newSalt ev.kdfParams
      let wrap := EncryptVaultKey vaultKey newMasterKey newNonceId
      some { ev with
        saltMaster := EncodeBase64 newSalt,
        encVaultKey := EncodeBase64 wrap.1,
        vaultKeyNonce := EncodeBase64 wrap.2,
        modifiedAt := now,
        version := ev.version + 1 }

/-- One persisted mutation of the envelope: either an entry mutation
(add, update, remove, all of which go through EncryptAndSave) or a
master-secret rotation. -/
inductive Mutation where
  | entryMutation (v : Vault) (vaultKey : Bytes) (nonceId now : Nat)
  | rotation (currentPassword newPassword1 newPassword2 : Bytes)
      (newSaltId newNonceId : Nat) (now : Nat)
deriving Repr

/-- Apply one mutation to the envelope; none models the mutation failing
before anything is persisted. -/
def applyMutation (ev : EncryptedVault) : Mutation → Option EncryptedVault
  | .entryMutation v vaultKey nonceId now =>
    some (EncryptAndSave v vaultKey nonceId now ev)
  | .rotation cur p1 p2 saltId nonceId now =>
    rotateMaster ev cur p1 p2 saltId nonceId now

/-- Apply a sequence of mutations, stopping at the first failure. -/
def applyMutations (ev : EncryptedVault) : List Mutation → Option EncryptedVault
  | [] => some ev
  | m :: ms =>
    match applyMutation ev m with
    | none => none
    | some ev2 => applyMutations ev2 ms

/-- The state of the local replica file for the unlock and save flows. -/
inductive LocalVaultFile where
  | missing
  | corrupt
  | stored (ev : EncryptedVault)
deriving DecidableEq, Repr

/-- LocalStorage.Exists: os.Stat succeeds exactly when the file is present. -/
def localExists : LocalVaultFile → Bool
  | .missing => false
  | _ => true

/-- Errors of the local replica store and the unlock flow. -/
inductive LocalErr where
  | notFound
  | parseFailure
  | decryptFailure
deriving DecidableEq, Repr

/-- LocalStorage.LoadEncryptedVault: not-found when the file is absent,
parse failure on malformed content, the envelope otherwise. -/
def LoadEncryptedVault : LocalVaultFile → Except LocalErr EncryptedVault
  | .missing => .error .notFound
  | .corrupt => .error .parseFailure
  | .stored ev => .ok ev

/-- LocalStorage.DecryptAndLoad: load the envelope then decrypt it. -/
def DecryptAndLoad (f : LocalVaultFile) (masterPassword : Bytes) :
    Except LocalErr (Vault × Bytes) :=
  match LoadEncryptedVault f with
  | .error e => .error e
  | .ok ev =>
    match decryptVault ev masterPassword with
    | some r => .ok r
    | none => .error .decryptFailure

/-- Errors reported by the unlock command. -/
inductive UnlockErr where
  | vaultNotFound
  | localFailed (e : LocalErr)
  | localAndRemoteFailed
  | remoteDecryptFailed
deriving DecidableEq, Repr

/-- unlockCmd: fails at once when the local replica file does not exist;
otherwise decrypts the local envelope, and only when that load or decryption
fails and a remote store is configured falls back to fetching and decrypting
the remote envelope. -/
def unlockRun (f : LocalVaultFile) (dynamoConfigured : Bool) (remoteStore : Option DItem)
    (password : Bytes) : Except UnlockErr (Vault × Bytes) :=
  if localExists f = false then .error .vaultNotFound
  else
    match DecryptAndLoad f password with
    | .ok r => .ok r
    | .error e =>
      if dynamoConfigured then
        match LoadVault remoteStore with
        | .error _ => .error .localAndRemoteFailed
        | .ok ev =>
          match decryptVault ev password with
          | some r => .ok r
          | none => .error .remoteDecryptFailed
      else .error (.localFailed e)

/-- Errors reported by the saveVault command helper. -/
inductive SaveCmdErr where
  | notUnlocked
  | loadFailed
  | syncFailed
deriving DecidableEq, Repr

/-- saveVault from the cmd package (used by add, update and remove): requires
an unlocked vault, reloads the envelope to preserve metadata, re-encrypts
and saves it locally via EncryptAndSave, then, when syncing is requested and
the remote store is configured, pushes with expected version one below the
just-incremented version and returns that push failure as an error of the
whole command.  The first component is the local replica file after the call:
the local save has already happened when the push fails. -/
def saveVaultCmdHelper (unlockedVault : Option Vault) (vaultKey : Bytes)
    (f : LocalVaultFile) (nonceId now : Nat) (syncToDynamo dynamoConfigured : Bool)
    (putStore : Option DItem) (userID deviceID : String) :
    LocalVaultFile × Except SaveCmdErr (Option DItem) :=
  match unlockedVault with
  | none => (f, .error .notUnlocked)
  | some v =>
    match LoadEncryptedVault f with
    | .error _ => (f, .error .loadFailed)
    | .ok ev =>
      let ev2 := EncryptAndSave v vaultKey nonceId now ev
      if syncToDynamo ∧ dynamoConfigured then
        match SaveVault putStore ev2 (ev2.version - 1) userID deviceID with
        | .ok s => (.stored ev2, .ok s)
        | .error _ => (.stored ev2, .error .syncFailed)
      else (.stored ev2, .ok putStore)

/-- File-system operations performed by the local replica store, recorded as a
trace: MkdirAll on the vault directory, a direct in-place WriteFile of the
serialized envelope, or a rename (which SaveEncryptedVault never performs). -/
inductive FsOp where
  | mkdirAllDirOf (path : String)
  | writeFile (path : String) (ev : EncryptedVault)
  | renameFile (src dst : String)
deriving DecidableEq, Repr

/-- LocalStorage.SaveEncryptedVault as the trace of file-system operations it
performs: EnsureDir (MkdirAll of the directory of the vault path) followed by
a single os.WriteFile of the serialized envelope directly at the final vault
path.  No temporary file and no rename appear in the trace. -/
def SaveEncryptedVaultOps (vaultPath : String) (ev : EncryptedVault) : List FsOp :=
  [.mkdirAllDirOf vaultPath, .writeFile vaultPath ev]

/-- Whether a trace contains a rename (the atomic-replace primitive of
temp-file-and-rename saves). -/
def usesRename (ops : List FsOp) : Bool :=
  ops.any fun op =>
    match op with
    | .renameFile _ _ => true
    | _ => false

/-- Crash model of an in-place os.WriteFile: the file is opened with O_TRUNC
(dropping the old content) and the new content is then written front to back,
so a crash can leave any prefix of the new content on disk. -/
def writeFileCrashStates (oldContent newContent : List Nat) : List (List Nat) :=
  let _ := oldContent
  (List.range (newContent.length + 1)).map fun k => newContent.take k

/-- SessionData from the session package: the persisted session file. -/
structure SessionData where
  encryptedVaultKey : B64
  nonce : B64
  sessionKey : B64
  sessionKeyNonce : B64
  createdAt : Nat
  expiresAt : Nat
deriving DecidableEq, Repr

/-- The state of the session file. -/
inductive SessionFile where
  | absent
  | stored (d : SessionData)
deriving DecidableEq, Repr

/-- DefaultSessionTimeout: 30 minutes, in seconds. -/
def DefaultSessionTimeout : Nat := 30 * 60

/-- SessionManager.getMasterKey: the device-local key protecting the session
key at rest, derived by Argon2id from the home directory and user name with a
salt built from the same values. -/
def sessionMasterKey (homeDir username : String) : Bytes :=
  DeriveMasterKey (.strB (homeDir ++ username))
    (.strB (homeDir ++ ":" ++ username ++ ":vaultctl"))
    { algo := "argon2id", memory := 32 * 1024, iterations := 2, parallelism := 1 }

/-- SessionManager.GetSessionKey: the cached in-process key when present,
else the key recovered from an existing session file, else a fresh random
key. -/
def GetSessionKey (cachedKey : Option Bytes) (file : SessionFile)
    (masterKey : Bytes) (freshId : Nat) : Bytes :=
  match cachedKey with
  | some k => k
  | none =>
    match file with
    | .stored d =>
      if d.sessionKey ≠ B64.empty then
        match Decrypt (DecodeBase64 d.sessionKey) (DecodeBase64 d.sessionKeyNonce) masterKey with
        | some k => k
        | none => .rand32 freshId
      else .rand32 freshId
    | .absent => .rand32 freshId

/-- SessionManager.SaveSession: wrap the vault key under the session key and
the session key under the device-local master key, each with a fresh nonce,
and persist both blobs with creation and expiry timestamps (expiry is the
current time plus the configured timeout). -/
def SaveSession (vaultKey sessionKey masterKey : Bytes) (nonceId1 nonceId2 : Nat)
    (now timeout : Nat) : SessionFile :=
  let encVK := Encrypt vaultKey sessionKey nonceId1
  let encSK := Encrypt sessionKey masterKey nonceId2
  .stored { encryptedVaultKey := EncodeBase64 encVK.1,
            nonce := EncodeBase64 encVK.2,
            sessionKey := EncodeBase64 encSK.1,
            sessionKeyNonce := EncodeBase64 encSK.2,
            createdAt := now, expiresAt := now + timeout }

/-- Errors reported by LoadSession. -/
inductive SessionErr where
  | noActiveSession
  | sessionExpired
  | sessionKeyMissing
  | decryptFailed
deriving DecidableEq, Repr

/-- SessionManager.LoadSession: no-active-session when the file is absent;
session-expired, after deleting the file, when the current time is strictly
past the expiry; otherwise unwrap the session key under the device-local
master key, then the vault key under the session key.  Returns the result
together with the session file state after the call (ClearSession removes the
file on expiry; every other path leaves it in place). -/
def LoadSession (file : SessionFile) (now : Nat) (masterKey : Bytes) :
    Except SessionErr Bytes × SessionFile :=
  match file with
  | .absent => (.error .noActiveSession, .absent)
  | .stored d =>
    if d.expiresAt < now then (.error .sessionExpired, .absent)
    else if d.sessionKey = B64.empty ∨ d.sessionKeyNonce = B64.empty then
      (.error .sessionKeyMissing, file)
    else
      match Decrypt (DecodeBase64 d.sessionKey) (DecodeBase64 d.sessionKeyNonce) masterKey with
      | none => (.error .decryptFailed, file)
      | some sessionKey =>
        match Decrypt (DecodeBase64 d.encryptedVaultKey) (DecodeBase64 d.nonce) sessionKey with
        | none => (.error .decryptFailed, file)
        | some vaultKey => (.ok vaultKey, file)

/-- SessionManager.ClearSession: idempotent removal of the session file. -/
def ClearSession : SessionFile → SessionFile
  | _ => .absent

/-- Decidable equality of results, so that concrete runs can be settled by
decide. -/
instance exceptDecEq {ε α : Type} [DecidableEq ε] [DecidableEq α] :
    DecidableEq (Except ε α) := fun a b =>
  match a, b with
  | .error e1, .error e2 =>
    if h : e1 = e2 then isTrue (h ▸ rfl) else isFalse fun hc => h (by injection hc)
  | .ok v1, .ok v2 =>
    if h : v1 = v2 then isTrue (h ▸ rfl) else isFalse fun hc => h (by injection hc)
  | .error _, .ok _ => isFalse fun hc => Except.noConfusion hc
  | .ok _, .error _ => isFalse fun hc => Except.noConfusion hc

/-- Test fixture: the envelope produced by init with password raw [7], with
its version overridden to build envelopes at chosen versions. -/
def fixtureEnvelope (ver : Int) : EncryptedVault :=
  { initEnvelope (.raw [7]) 0 1 2 3 "vid-1" 5 with version := ver }

/-- Test fixture: the remote item holding fixtureEnvelope at a version. -/
def fixtureItem (ver : Int) : DItem := mkDynamoItem (fixtureEnvelope ver) "u" "d"

/-- Test fixture: an entry mutation followed by a successful rotation. -/
def fixtureMutations : List Mutation :=
  [ .entryMutation (NewVault "vid-1") (.rand32 1) 10 11,
    .rotation (.raw [7]) (.raw [8]) (.raw [8]) 12 13 14 ]

/-- Test fixture: the envelope after applying fixtureMutations. -/
def fixtureMutated : EncryptedVault :=
  (applyMutations (fixtureEnvelope 5) fixtureMutations).getD (fixtureEnvelope 5)

/-- Test fixture: the envelope after rotating fixtureEnvelope 5 from the
passphrase raw [7] to the passphrase raw [8]. -/
def fixtureRotated : EncryptedVault :=
  (rotateMaster (fixtureEnvelope 5) (.raw [7]) (.raw [8]) (.raw [8]) 20 21 22).getD
    (fixtureEnvelope 5)

/-- A legacy envelope, predating the dedicated wrapped-key nonce field: the
vault_key_nonce field is the empty string and the vault key was wrapped under
the single nonce that also protects the record-model payload. -/
def legacyEnvelope (password : Bytes) (v : Vault) (saltId vkId nonceId : Nat)
    (params : KDFParams) (sv : Nat) (vid ciph : String) (ts : Nat) (ver : Int) :
    EncryptedVault :=
  let salt := Bytes.rand32 saltId
  let vaultKey := Bytes.rand32 vkId
  let masterKey := DeriveMasterKey password salt params
  let nonce := Bytes.rand24 nonceId
  { schemaVersion := sv, vaultID := vid,
    saltMaster := EncodeBase64 salt,
    encVaultKey := EncodeBase64 (Bytes.sealed vaultKey masterKey nonce),
    vaultKeyNonce := B64.empty,
    kdfParams := params,
    cipher := ciph,
    ciphertext := EncodeBase64 (Bytes.sealed (Bytes.vaultJson v) vaultKey nonce),
    nonce := EncodeBase64 nonce,
    modifiedAt := ts, version := ver }

/-- Test fixture: a session file written at time 100 that expired at 150. -/
def fixtureSession : SessionData :=
  { encryptedVaultKey := EncodeBase64 (Bytes.sealed (.rand32 1) (.rand32 2) (.rand24 40)),
    nonce := EncodeBase64 (.rand24 40),
    sessionKey := EncodeBase64 (Bytes.sealed (.rand32 2) (sessionMasterKey "h" "u") (.rand24 41)),
    sessionKeyNonce := EncodeBase64 (.rand24 41),
    createdAt := 100, expiresAt := 150 }

/-- C1: Syncing a local envelope against a fetched remote record is
version-wins with a strict-older guard: when the local version is strictly
below the remote one the sync returns the remote envelope and leaves the
store untouched (no put is issued); when the local version is greater or
equal the sync puts the local envelope with expected version equal to the
fetched remote version, so afterwards the remote item carries the local
envelope and its version.  The second part assumes the store invariant that
the item version attribute matches the version inside the stored blob, which
every write of SaveVault establishes. -/
theorem C1_sync_version_wins (item : DItem) (localEV : EncryptedVault) (u d : String) :
    (localEV.version < item.vaultBlob.version →
      SyncVault (some item) (some item) localEV u d = .ok (item.vaultBlob, some item))
    ∧ (item.version = item.vaultBlob.version →
      item.vaultBlob.version ≤ localEV.version →
      SyncVault (some item) (some item) localEV u d
        = .ok (localEV, some (mkDynamoItem localEV u d))) := by
  constructor
  · intro h
    simp only [SyncVault, LoadVault]
    rw [if_neg (by omega)]
  · intro hwf h
    simp only [SyncVault, LoadVault]
    rw [if_pos h]
    simp [SaveVault, hwf]

/-- Witness for C1 at concrete versions 5 and 7: local 5 against remote 7
returns the remote without pushing; local 7 against remote 5 pushes and the
remote ends with the local envelope at version 7. -/
theorem C1_sync_version_wins_witness :
    SyncVault (some (fixtureItem 7)) (some (fixtureItem 7)) (fixtureEnvelope 5) "u" "d"
      = .ok ((fixtureItem 7).vaultBlob, some (fixtureItem 7))
    ∧ SyncVault (some (fixtureItem 5)) (some (fixtureItem 5)) (fixtureEnvelope 7) "u" "d"
      = .ok (fixtureEnvelope 7, some (mkDynamoItem (fixtureEnvelope 7) "u" "d")) :=
  ⟨(C1_sync_version_wins (fixtureItem 7) (fixtureEnvelope 5) "u" "d").1 (by decide),
   (C1_sync_version_wins (fixtureItem 5) (fixtureEnvelope 7) "u" "d").2 (by decide) (by decide)⟩

/-- C2 counterexample: a sync that fetches the remote at version 5, while the
record at put time has moved to version 6 (a concurrent writer), returns the
version-conflict error directly to the caller — no re-fetch, no retry — even
though a retry of the algorithm from step 1 against the new state would have
succeeded and returned the newer remote envelope (second conjunct). -/
theorem C2_no_retry_counterexample :
    SyncVault (some (fixtureItem 5)) (some (fixtureItem 6)) (fixtureEnvelope 5) "u" "d"
      = .error .versionConflict
    ∧ SyncVault (some (fixtureItem 6)) (some (fixtureItem 6)) (fixtureEnvelope 5) "u" "d"
      = .ok ((fixtureItem 6).vaultBlob, some (fixtureItem 6)) := by
  constructor <;> decide

/-- C2 (amended): when the local version is greater than or equal to the
fetched remote version and the conditional put fails its version check,
SyncVault returns the version-conflict error to the caller at once; it
performs no re-fetch and no retry (the error text tells the user to run the
sync command again by hand). -/
theorem C2_conflict_surfaced_without_retry (fetchItem putItem : DItem)
    (localEV : EncryptedVault) (u d : String)
    (hge : fetchItem.vaultBlob.version ≤ localEV.version)
    (hconflict : putItem.version ≠ fetchItem.vaultBlob.version) :
    SyncVault (some fetchItem) (some putItem) localEV u d = .error .versionConflict := by
  simp only [SyncVault, LoadVault]
  rw [if_pos hge]
  simp [SaveVault, hconflict]

/-- Witness for C2 at the concrete race of the counterexample. -/
theorem C2_conflict_surfaced_without_retry_witness :
    SyncVault (some (fixtureItem 5)) (some (fixtureItem 6)) (fixtureEnvelope 5) "u" "d"
      = .error .versionConflict :=
  C2_conflict_surfaced_without_retry (fixtureItem 5) (fixtureItem 6) (fixtureEnvelope 5)
    "u" "d" (by decide) (by decide)

/-- C3 counterexample: with no remote record present, a conditional put with
expected version 42 — a value that does not denote "no record" (init pushes a
fresh vault with expected version 0) — succeeds instead of failing.  The
condition attribute_not_exists(version) OR version = :expectedVersion is
vacuously true whenever the record is absent. -/
theorem C3_absent_record_counterexample :
    SaveVault none (fixtureEnvelope 5) 42 "u" "d"
      = .ok (some (mkDynamoItem (fixtureEnvelope 5) "u" "d")) := by
  decide

/-- C3 (amended): the conditional put is one atomic operation that, when a
remote record exists, succeeds exactly when the stored version equals the
expected version and fails with the version-conflict error otherwise; when no
record exists it succeeds regardless of the expected version. -/
theorem C3_conditional_put (ev : EncryptedVault) (expected : Int) (u d : String) :
    (∀ item : DItem,
      SaveVault (some item) ev expected u d
        = if item.version = expected then .ok (some (mkDynamoItem ev u d))
          else .error .versionConflict)
    ∧ SaveVault none ev expected u d = .ok (some (mkDynamoItem ev u d)) := by
  exact ⟨fun _ => rfl, rfl⟩

/-- C4: every successful persisted mutation — an entry mutation through
EncryptAndSave (add, update, remove) or a master-secret rotation — increments
the envelope version by exactly one, and a sequence of N successful mutations
starting from version V0 ends at exactly V0 + N. -/
theorem C4_version_monotonicity :
    (∀ (ev : EncryptedVault) (m : Mutation) (ev2 : EncryptedVault),
      applyMutation ev m = some ev2 → ev2.version = ev.version + 1)
    ∧ (∀ (ms : List Mutation) (ev ev2 : EncryptedVault),
      applyMutations ev ms = some ev2 → ev2.version = ev.version + ms.length) := by
  have hstep : ∀ (ev : EncryptedVault) (m : Mutation) (ev2 : EncryptedVault),
      applyMutation ev m = some ev2 → ev2.version = ev.version + 1 := by
    intro ev m ev2 h
    cases m with
    | entryMutation v key nId now =>
      simp only [applyMutation, EncryptAndSave] at h
      cases h
      rfl
    | rotation cur p1 p2 sId nId now =>
      simp only [applyMutation, rotateMaster] at h
      split at h
      · exact absurd h (by simp)
      · split at h
        · exact absurd h (by simp)
        · injection h with h2
          subst h2
          rfl
  refine ⟨hstep, ?_⟩
  intro ms
  induction ms with
  | nil =>
    intro ev ev2 h
    simp only [applyMutations] at h
    cases h
    simp
  | cons m ms ih =>
    intro ev ev2 h
    simp only [applyMutations] at h
    cases hm : applyMutation ev m with
    | none => rw [hm] at h; cases h
    | some ev1 =>
      rw [hm] at h
      have h1 := hstep ev m ev1 hm
      have h2 := ih ev1 ev2 h
      rw [h2, h1]
      simp only [List.length_cons]
      push_cast
      ring

/-- Witness for C4: two concrete successful mutations starting at version 5
end at version 5 + 2. -/
theorem C4_version_monotonicity_witness :
    applyMutations (fixtureEnvelope 5) fixtureMutations = some fixtureMutated
    ∧ fixtureMutated.version = (fixtureEnvelope 5).version + fixtureMutations.length :=
  ⟨by decide,
   C4_version_monotonicity.2 fixtureMutations (fixtureEnvelope 5) fixtureMutated (by decide)⟩

/-- Unfolding of decryptVault into its two decryption stages. -/
theorem decryptVault_eq (ev : EncryptedVault) (pw : Bytes) :
    decryptVault ev pw =
      match DecryptVaultKey (DecodeBase64 ev.encVaultKey)
          (if ev.vaultKeyNonce ≠ B64.empty then DecodeBase64 ev.vaultKeyNonce
           else DecodeBase64 ev.nonce)
          (DeriveMasterKey pw (DecodeBase64 ev.saltMaster) ev.kdfParams) with
      | none => none
      | some vaultKey =>
        match Decrypt (DecodeBase64 ev.ciphertext) (DecodeBase64 ev.nonce) vaultKey with
        | none => none
        | some plaintext =>
          match VaultFromJSON plaintext with
          | none => none
          | some v => some (v, vaultKey) := rfl

/-- Unfolding of rotateMaster into the unwrap stage followed by the
confirmation check and the envelope update. -/
theorem rotateMaster_eq (ev : EncryptedVault) (cur p1 p2 : Bytes)
    (saltId nonceId now : Nat) :
    rotateMaster ev cur p1 p2 saltId nonceId now =
      match DecryptVaultKey (DecodeBase64 ev.encVaultKey)
          (if ev.vaultKeyNonce ≠ B64.empty then DecodeBase64 ev.vaultKeyNonce
           else DecodeBase64 ev.nonce)
          (DeriveMasterKey cur (DecodeBase64 ev.saltMaster) ev.kdfParams) with
      | none => none
      | some vaultKey =>
        if ¬ ConstantTimeCompare p1 p2 then none
        else some { ev with
          saltMaster := EncodeBase64 (Bytes.rand32 saltId),
          encVaultKey := EncodeBase64 (Bytes.sealed vaultKey
            (DeriveMasterKey p1 (Bytes.rand32 saltId) ev.kdfParams) (Bytes.rand24 nonceId)),
          vaultKeyNonce := EncodeBase64 (Bytes.rand24 nonceId),
          modifiedAt := now,
          version := ev.version + 1 } := rfl

/-- C5: a successful rotation changes only the KDF salt, the wrapped vault
key, the wrapped-key nonce, the modified timestamp and the version (which
rises by one); the encrypted payload and its nonce are unchanged, and because
the same vault key was re-wrapped under the new master key, unlocking the
rotated envelope with the new passphrase gives exactly the result of
unlocking the old envelope with the old passphrase — in particular the same
entry set. -/
theorem C5_rotation_frame (ev ev2 : EncryptedVault) (cur p1 p2 : Bytes)
    (saltId nonceId now : Nat)
    (h : rotateMaster ev cur p1 p2 saltId nonceId now = some ev2) :
    ev2.schemaVersion = ev.schemaVersion ∧ ev2.vaultID = ev.vaultID
    ∧ ev2.kdfParams = ev.kdfParams ∧ ev2.cipher = ev.cipher
    ∧ ev2.ciphertext = ev.ciphertext ∧ ev2.nonce = ev.nonce
    ∧ ev2.modifiedAt = now ∧ ev2.version = ev.version + 1
    ∧ decryptVault ev2 p1 = decryptVault ev cur := by
  rw [rotateMaster_eq] at h
  cases hk : DecryptVaultKey (DecodeBase64 ev.encVaultKey)
      (if ev.vaultKeyNonce ≠ B64.empty then DecodeBase64 ev.vaultKeyNonce
       else DecodeBase64 ev.nonce)
      (DeriveMasterKey cur (DecodeBase64 ev.saltMaster) ev.kdfParams) with
  | none => rw [hk] at h; cases h
  | some vaultKey =>
    rw [hk] at h
    by_cases hc : ConstantTimeCompare p1 p2 = true
    · simp only [hc, not_true_eq_false, if_false, Option.some.injEq] at h
      subst h
      refine ⟨rfl, rfl, rfl, rfl, rfl, rfl, rfl, rfl, ?_⟩
      rw [decryptVault_eq, decryptVault_eq, hk]
      simp [EncodeBase64, DecodeBase64, DecryptVaultKey, Bytes.blen, DeriveMasterKey]
    · simp [hc] at h

/-- Witness for C5: a concrete successful rotation, with all frame equalities
evaluated at it. -/
theorem C5_rotation_frame_witness :
    rotateMaster (fixtureEnvelope 5) (.raw [7]) (.raw [8]) (.raw [8]) 20 21 22
      = some fixtureRotated
    ∧ (fixtureRotated.schemaVersion = (fixtureEnvelope 5).schemaVersion
      ∧ fixtureRotated.vaultID = (fixtureEnvelope 5).vaultID
      ∧ fixtureRotated.kdfParams = (fixtureEnvelope 5).kdfParams
      ∧ fixtureRotated.cipher = (fixtureEnvelope 5).cipher
      ∧ fixtureRotated.ciphertext = (fixtureEnvelope 5).ciphertext
      ∧ fixtureRotated.nonce = (fixtureEnvelope 5).nonce
      ∧ fixtureRotated.modifiedAt = 22
      ∧ fixtureRotated.version = (fixtureEnvelope 5).version + 1
      ∧ decryptVault fixtureRotated (.raw [8]) = decryptVault (fixtureEnvelope 5) (.raw [7])) :=
  ⟨by decide,
   C5_rotation_frame (fixtureEnvelope 5) fixtureRotated (.raw [7]) (.raw [8]) (.raw [8])
     20 21 22 (by decide)⟩

/-- C6: an otherwise valid envelope whose dedicated wrapped-key nonce field
is empty unlocks successfully, the unwrap falling back to the record-model
payload nonce; and every newly written envelope — built by init or rewritten
by a successful rotation — populates the dedicated wrapped-key nonce
field. -/
theorem C6_legacy_nonce_fallback :
    (∀ (password : Bytes) (v : Vault) (saltId vkId nonceId : Nat) (params : KDFParams)
      (sv : Nat) (vid ciph : String) (ts : Nat) (ver : Int),
      decryptVault (legacyEnvelope password v saltId vkId nonceId params sv vid ciph ts ver)
        password = some (v, .rand32 vkId))
    ∧ (∀ (password : Bytes) (saltId vkId wrapNonceId payloadNonceId : Nat) (vid : String)
      (now : Nat),
      (initEnvelope password saltId vkId wrapNonceId payloadNonceId vid now).vaultKeyNonce
        ≠ B64.empty)
    ∧ (∀ (ev ev2 : EncryptedVault) (cur p1 p2 : Bytes) (saltId nonceId now : Nat),
      rotateMaster ev cur p1 p2 saltId nonceId now = some ev2 →
      ev2.vaultKeyNonce ≠ B64.empty) := by
  refine ⟨?_, ?_, ?_⟩
  · intro password v saltId vkId nonceId params sv vid ciph ts ver
    rw [decryptVault_eq]
    simp [legacyEnvelope, EncodeBase64, DecodeBase64, DecryptVaultKey, Decrypt,
          Bytes.blen, DeriveMasterKey, VaultFromJSON]
  · intro password saltId vkId wrapNonceId payloadNonceId vid now
    simp [initEnvelope, EncryptVaultKey, EncodeBase64]
  · intro ev ev2 cur p1 p2 saltId nonceId now h
    rw [rotateMaster_eq] at h
    split at h
    · cases h
    · split at h
      · cases h
      · injection h with h2
        subst h2
        simp [EncodeBase64]

/-- Witness for C6: the concrete rotation of the fixture envelope populates
the dedicated wrapped-key nonce field. -/
theorem C6_legacy_nonce_fallback_witness :
    rotateMaster (fixtureEnvelope 5) (.raw [7]) (.raw [8]) (.raw [8]) 20 21 22
      = some fixtureRotated
    ∧ fixtureRotated.vaultKeyNonce ≠ B64.empty :=
  ⟨by decide,
   C6_legacy_nonce_fallback.2.2 (fixtureEnvelope 5) fixtureRotated (.raw [7]) (.raw [8])
     (.raw [8]) 20 21 22 (by decide)⟩

/-- C7 counterexample: an add-style save with syncing enabled, whose local
encrypt-and-save succeeds (the local replica now stores the new envelope at
version 6) but whose remote push hits a version conflict, makes the whole
command return an error; the second conjunct runs the identical inputs with
syncing off and succeeds, so the failure is due solely to the remote push. -/
theorem C7_push_failure_counterexample :
    saveVaultCmdHelper (some (NewVault "vid-1")) (.rand32 1) (.stored (fixtureEnvelope 5))
        10 11 true true (some (fixtureItem 9)) "u" "d"
      = (.stored (EncryptAndSave (NewVault "vid-1") (.rand32 1) 10 11 (fixtureEnvelope 5)),
         .error .syncFailed)
    ∧ saveVaultCmdHelper (some (NewVault "vid-1")) (.rand32 1) (.stored (fixtureEnvelope 5))
        10 11 false true (some (fixtureItem 9)) "u" "d"
      = (.stored (EncryptAndSave (NewVault "vid-1") (.rand32 1) 10 11 (fixtureEnvelope 5)),
         .ok (some (fixtureItem 9))) := by
  constructor <;> decide

/-- C7 (amended): in the saveVault helper shared by add, update and remove,
a failed remote push is returned as an error of the whole operation, even
though the local save has already succeeded — the local file ends at the new
envelope in both conjuncts, but the command reports failure when the push
fails and success only when syncing is off or the push goes through. -/
theorem C7_push_failure_fails_command (v : Vault) (vaultKey : Bytes)
    (ev : EncryptedVault) (nonceId now : Nat) (putItem : DItem) (u d : String)
    (hconflict : putItem.version ≠ (EncryptAndSave v vaultKey nonceId now ev).version - 1) :
    saveVaultCmdHelper (some v) vaultKey (.stored ev) nonceId now true true
        (some putItem) u d
      = (.stored (EncryptAndSave v vaultKey nonceId now ev), .error .syncFailed)
    ∧ saveVaultCmdHelper (some v) vaultKey (.stored ev) nonceId now false true
        (some putItem) u d
      = (.stored (EncryptAndSave v vaultKey nonceId now ev), .ok (some putItem)) := by
  constructor
  · simp [saveVaultCmdHelper, LoadEncryptedVault, SaveVault, hconflict]
  · simp [saveVaultCmdHelper, LoadEncryptedVault]

/-- Witness for C7 at the concrete conflicting remote item. -/
theorem C7_push_failure_fails_command_witness :
    saveVaultCmdHelper (some (NewVault "vid-1")) (.rand32 1) (.stored (fixtureEnvelope 5))
        10 11 true true (some (fixtureItem 9)) "u" "d"
      = (.stored (EncryptAndSave (NewVault "vid-1") (.rand32 1) 10 11 (fixtureEnvelope 5)),
         .error .syncFailed)
    ∧ saveVaultCmdHelper (some (NewVault "vid-1")) (.rand32 1) (.stored (fixtureEnvelope 5))
        10 11 false true (some (fixtureItem 9)) "u" "d"
      = (.stored (EncryptAndSave (NewVault "vid-1") (.rand32 1) 10 11 (fixtureEnvelope 5)),
         .ok (some (fixtureItem 9))) :=
  C7_push_failure_fails_command (NewVault "vid-1") (.rand32 1) (fixtureEnvelope 5)
    10 11 (fixtureItem 9) "u" "d" (by decide)

/-- C8 counterexample: the local replica file is missing, the remote store is
configured and holds a record whose envelope decrypts with the supplied
passphrase (second conjunct), yet unlock fails with the not-found error
instead of falling back to the remote store. -/
theorem C8_missing_local_counterexample :
    unlockRun .missing true (some (fixtureItem 5)) (.raw [7]) = .error .vaultNotFound
    ∧ decryptVault (fixtureItem 5).vaultBlob (.raw [7])
        = some (NewVault "vid-1", .rand32 1) := by
  constructor <;> decide

/-- C8 (amended): when the local replica file does not exist, unlock fails
with the not-found error without consulting the remote store at all; the
remote fallback applies only when the file exists but loading or decrypting
it fails: a corrupt local file (or one the passphrase cannot decrypt) with a
configured remote store falls back to fetching and decrypting the remote
envelope. -/
theorem C8_unlock_fallback_scope (password : Bytes) :
    (∀ (dynamoConfigured : Bool) (remoteStore : Option DItem),
      unlockRun .missing dynamoConfigured remoteStore password = .error .vaultNotFound)
    ∧ (∀ (item : DItem) (r : Vault × Bytes),
      decryptVault item.vaultBlob password = some r →
      unlockRun .corrupt true (some item) password = .ok r)
    ∧ (∀ (ev : EncryptedVault) (item : DItem) (r : Vault × Bytes),
      decryptVault ev password = none →
      decryptVault item.vaultBlob password = some r →
      unlockRun (.stored ev) true (some item) password = .ok r) := by
  refine ⟨?_, ?_, ?_⟩
  · intro dynamoConfigured remoteStore
    rfl
  · intro item r hr
    simp [unlockRun, localExists, DecryptAndLoad, LoadEncryptedVault, LoadVault, hr]
  · intro ev item r hnone hr
    simp [unlockRun, localExists, DecryptAndLoad, LoadEncryptedVault, LoadVault, hnone, hr]

/-- Witness for C8: the missing-file failure, the corrupt-local fallback and
the undecryptable-local fallback at concrete inputs. -/
theorem C8_unlock_fallback_scope_witness :
    unlockRun .missing true (some (fixtureItem 5)) (.raw [7]) = .error .vaultNotFound
    ∧ unlockRun .corrupt true (some (fixtureItem 5)) (.raw [7])
        = .ok (NewVault "vid-1", .rand32 1)
    ∧ unlockRun
        (.stored (legacyEnvelope (.raw [9]) (NewVault "x") 30 31 32 DefaultKDFParams
          1 "x" "c" 0 1))
        true (some (fixtureItem 5)) (.raw [7])
        = .ok (NewVault "vid-1", .rand32 1) :=
  ⟨(C8_unlock_fallback_scope (.raw [7])).1 true (some (fixtureItem 5)),
   (C8_unlock_fallback_scope (.raw [7])).2.1 (fixtureItem 5)
     (NewVault "vid-1", .rand32 1) (by decide),
   (C8_unlock_fallback_scope (.raw [7])).2.2
     (legacyEnvelope (.raw [9]) (NewVault "x") 30 31 32 DefaultKDFParams 1 "x" "c" 0 1)
     (fixtureItem 5) (NewVault "vid-1", .rand32 1) (by decide) (by decide)⟩

/-- C9: SaveEncryptedVault is not atomic.  Its trace is exactly a MkdirAll of
the vault directory followed by one direct in-place WriteFile at the final
vault path; no temporary file and no rename are involved.  Under the crash
model of an in-place truncate-then-write, the on-disk state right after the
truncation is the empty file, which is neither the previous content nor the
new content — a crash there both loses the last successful save and exposes
partial bytes to a reader. -/
theorem C9_save_in_place_not_atomic :
    (∀ (vaultPath : String) (ev : EncryptedVault),
      SaveEncryptedVaultOps vaultPath ev
        = [.mkdirAllDirOf vaultPath, .writeFile vaultPath ev])
    ∧ (∀ (vaultPath : String) (ev : EncryptedVault),
      usesRename (SaveEncryptedVaultOps vaultPath ev) = false)
    ∧ ([] ∈ writeFileCrashStates [1] [2, 3]
      ∧ ([] : List Nat) ≠ [1] ∧ ([] : List Nat) ≠ [2, 3]) := by
  refine ⟨fun _ _ => rfl, fun _ _ => rfl, by decide, by decide, by decide⟩

/-- C10: loading the session within the expiry window written by SaveSession
(in particular at the very moment of saving, with any timeout including the
default 30 minutes) succeeds and returns the vault key, leaving the session
file in place; loading when the current time is strictly past the expiry
fails with the session-expired error and deletes the session file; loading
with no session file fails with the no-active-session error. -/
theorem C10_session_expiry :
    (∀ (vaultKey sessionKey : Bytes) (homeDir username : String)
      (n1 n2 t timeout now : Nat), now ≤ t + timeout →
      LoadSession (SaveSession vaultKey sessionKey (sessionMasterKey homeDir username)
          n1 n2 t timeout) now (sessionMasterKey homeDir username)
        = (.ok vaultKey,
           SaveSession vaultKey sessionKey (sessionMasterKey homeDir username)
             n1 n2 t timeout))
    ∧ (∀ (d : SessionData) (now : Nat) (masterKey : Bytes), d.expiresAt < now →
      LoadSession (.stored d) now masterKey = (.error .sessionExpired, .absent))
    ∧ (∀ (now : Nat) (masterKey : Bytes),
      LoadSession .absent now masterKey = (.error .noActiveSession, .absent)) := by
  refine ⟨?_, ?_, ?_⟩
  · intro vaultKey sessionKey homeDir username n1 n2 t timeout now h
    have hlt : ¬ (t + timeout < now) := not_lt.mpr h
    simp [LoadSession, SaveSession, Encrypt, EncodeBase64, DecodeBase64, Decrypt,
          Bytes.blen, hlt]
  · intro d now masterKey h
    simp [LoadSession, h]
  · intro now masterKey
    rfl

/-- Witness for C10: a load immediately after a save with the default
30-minute timeout returns the vault key; a load at time 200 of a session that
expired at 150 reports expiry and removes the file; a load with no file
reports no active session. -/
theorem C10_session_expiry_witness :
    LoadSession (SaveSession (.rand32 1) (.rand32 2) (sessionMasterKey "h" "u") 40 41 100
        DefaultSessionTimeout) 100 (sessionMasterKey "h" "u")
      = (.ok (.rand32 1),
         SaveSession (.rand32 1) (.rand32 2) (sessionMasterKey "h" "u") 40 41 100
           DefaultSessionTimeout)
    ∧ LoadSession (.stored fixtureSession) 200 (sessionMasterKey "h" "u")
      = (.error .sessionExpired, .absent)
    ∧ LoadSession .absent 0 (sessionMasterKey "h" "u")
      = (.error .noActiveSession, .absent) :=
  ⟨C10_session_expiry.1 (.rand32 1) (.rand32 2) "h" "u" 40 41 100 DefaultSessionTimeout
     100 (by decide),
   C10_session_expiry.2.1 fixtureSession 200 (sessionMasterKey "h" "u") (by decide),
   C10_session_expiry.2.2 0 (sessionMasterKey "h" "u")⟩
